import Mathlib

/-!
Shallow embedding of the graph-construction and validation engine of
`src/components/Queryflowchart.tsx` (aishulle/flowchart-game).

The component keeps a list of nodes and a list of edges in React state.
The core operations embedded here are:
* `handleSubmit` (lines 198-235): scores the user graph against `expectedFlow`;
* `handleReset` (lines 237-243): clears the graph;
* `handleShowSolution` (lines 245-339): rebuilds the reference graph and
  schedules one `setTimeout` per solution edge (100 ms stride) plus a final
  fit-to-view call;
* `onConnect` (lines 161-169): appends a user edge via reactflow's `addEdge`.

Node ids are produced by `uuidv4()` in the source; the embedding draws fresh
ids from a counter (`nextId`), which preserves exactly what the code relies
on: each generated id is new.  Node positions are numbers; the solution
position table is integral, and the random x coordinate of a user-added node
is passed in as an explicit argument.  The deferred edge insertions of the
reveal animation are modelled by an explicit timer queue (`Timer`) together
with a single-threaded event loop (`fireTimer` / `runTimers`) that always
fires the pending timer with the earliest deadline, breaking ties by
scheduling order - the semantics of JavaScript's `setTimeout`.
-/

/-- The ten fixed node roles of `nodeTemplates` (Queryflowchart.tsx lines 73-84). -/
inductive NodeKind where
  | user
  | knowledgeBase
  | aiEngine
  | retriever
  | llmModel
  | promptTemplate
  | outputResults
  | evaluationStep
  | apiEndpoints
  | humanFeedback
deriving DecidableEq, Repr, Fintype

/-- The display label of each node kind, exactly the strings of `nodeTemplates`. -/
def NodeKind.text : NodeKind → String
  | .user => "User"
  | .knowledgeBase => "Knowledge Base"
  | .aiEngine => "AI Engine (Chain)"
  | .retriever => "Retriever"
  | .llmModel => "LLM Model"
  | .promptTemplate => "Prompt Template"
  | .outputResults => "Output/Results Formatted"
  | .evaluationStep => "Evaluation"
  | .apiEndpoints => "API Endpoints"
  | .humanFeedback => "Human Feedback"

/-- The node-kind catalog in `nodeTemplates` order (lines 73-84). -/
def nodeKinds : List NodeKind :=
  [.user, .knowledgeBase, .aiEngine, .retriever, .llmModel,
   .promptTemplate, .outputResults, .evaluationStep, .apiEndpoints, .humanFeedback]

/-- The fixed reference edge sequence `expectedFlow` (lines 87-99). -/
def expectedFlow : List (NodeKind × NodeKind) :=
  [(.user, .knowledgeBase),
   (.knowledgeBase, .aiEngine),
   (.aiEngine, .retriever),
   (.aiEngine, .apiEndpoints),
   (.retriever, .llmModel),
   (.llmModel, .promptTemplate),
   (.promptTemplate, .outputResults),
   (.outputResults, .user),
   (.outputResults, .evaluationStep),
   (.evaluationStep, .humanFeedback),
   (.humanFeedback, .promptTemplate)]

/-- `expectedFlow.length`, the `totalExpected` of the evaluation result. -/
def totalExpected : Nat := expectedFlow.length

/-- A graph node: unique id, kind label and 2D position
(the `Node` objects stored in the `nodes` React state; the hover callbacks
attached to `data` are presentation-only and are not part of the graph data). -/
structure GNode where
  id : Nat
  label : NodeKind
  x : Int
  y : Int
deriving DecidableEq, Repr

/-- A graph edge: id plus source/target node ids
(the `Edge` objects stored in the `edges` React state; marker, animation and
style fields are presentation-only). -/
structure GEdge where
  id : String
  source : Nat
  target : Nat
deriving DecidableEq, Repr

/-- `nodes.find(n => n.data.label === label)`: first node with the given label,
in insertion order (lines 201-202). -/
def findNodeByLabel (nodes : List GNode) (label : NodeKind) : Option GNode :=
  nodes.find? (fun n => n.label == label)

/-- `edges.find(e => e.source === srcId && e.target === tgtId)` turned into an
existence check (line 204): is there an edge from `s` to `t`? -/
def edgeExists (edges : List GEdge) (s t : Nat) : Bool :=
  edges.any (fun e => e.source == s && e.target == t)

/-- One iteration of the scoring loop of `handleSubmit` (lines 200-207): the
reference pair `p` counts iff a node of its source kind and a node of its
target kind exist (first match by insertion order for each) and an edge runs
from that source node to that target node. -/
def pairMatched (nodes : List GNode) (edges : List GEdge)
    (p : NodeKind × NodeKind) : Bool :=
  match findNodeByLabel nodes p.1, findNodeByLabel nodes p.2 with
  | some sN, some tN => edgeExists edges sN.id tN.id
  | _, _ => false

/-- The `correct` counter of `handleSubmit` (lines 199-207). -/
def matchedCount (nodes : List GNode) (edges : List GEdge) : Nat :=
  expectedFlow.countP (fun p => pairMatched nodes edges p)

/-- `((correct / total) * 100).toFixed(1)` (line 216), represented as a count
of tenths of a percent.  `toFixed(1)` rounds to the nearest tenth; for the
only fractions that arise (multiples of 1/11, and 1/2 on the empty total
never occurs since `total = 11`) the double computation agrees with exact
rational rounding half-up, which is what this definition computes. -/
def accuracyTenths (correct total : Nat) : Nat :=
  (correct * 2000 + total) / (2 * total)

/-- The qualitative feedback tier determined by the tier ladder of
`handleSubmit` (lines 218-226), a function of the rounded percentage. -/
inductive Tier where
  | excellent
  | good
  | fair
  | needsWork
deriving DecidableEq, Repr

/-- The tier ladder of lines 218-226: `parseFloat(accuracy)` of the rounded
one-decimal percentage is `tenths / 10`, so the comparisons against
90 / 70 / 50 become comparisons of `tenths` against 900 / 700 / 500. -/
def tierOf (tenths : Nat) : Tier :=
  if 900 ≤ tenths then .excellent
  else if 700 ≤ tenths then .good
  else if 500 ≤ tenths then .fair
  else .needsWork

/-- The feedback strings of lines 219-225. -/
def tierMessage : Tier → String
  | .excellent => "Excellent! You have nearly perfect understanding of the flow."
  | .good => "Good job! You understand most of the key connections."
  | .fair => "Not bad! Review the solution to see what you missed."
  | .needsWork => "Keep trying! Review the steps and try again."

/-- The `feedback` string picked by the if/else ladder of lines 217-226. -/
def feedbackOf (tenths : Nat) : String :=
  tierMessage (tierOf tenths)

/-- The `Result` record built by `handleSubmit` (lines 228-233). -/
structure EvalResult where
  correct : Nat
  total : Nat
  accuracyTenths : Nat
  feedback : String
deriving DecidableEq, Repr

/-- The evaluation result computed by `handleSubmit` (lines 198-233). -/
def evaluate (nodes : List GNode) (edges : List GEdge) : EvalResult :=
  let correct := matchedCount nodes edges
  let tenths := accuracyTenths correct totalExpected
  { correct := correct
    total := totalExpected
    accuracyTenths := tenths
    feedback := feedbackOf tenths }

/-- The celebration branch of `handleSubmit` (line 209):
`correct / expectedFlow.length >= 0.7` as an exact rational comparison.
`true` plays the success sound and fires the confetti, `false` the error
sound. -/
def submitCelebrates (nodes : List GNode) (edges : List GEdge) : Bool :=
  7 * totalExpected ≤ 10 * matchedCount nodes edges


/-- A deferred mutation scheduled with `setTimeout`.  `due` is the absolute
deadline in milliseconds, `seq` the scheduling order (used to break ties the
way the JavaScript event loop does and to identify the timer in the queue). -/
inductive TimerAction where
  | insertEdge (e : GEdge) (isLast : Bool)
  | settle
deriving DecidableEq, Repr

/-- A pending timer in the event-loop queue. -/
structure Timer where
  due : Nat
  seq : Nat
  action : TimerAction
deriving DecidableEq, Repr

/-- The component state: the two graph collections, the result/overlay state,
the pending timer queue, the current time, and fresh-id and fresh-seq
counters.  `settleTimes` records each time the final fit-to-view call of a
reveal runs (line 334). -/
structure AppState where
  nodes : List GNode
  edges : List GEdge
  result : Option EvalResult
  showSolution : Bool
  showResultOverlay : Bool
  timers : List Timer
  now : Nat
  nextSeq : Nat
  nextId : Nat
  settleTimes : List Nat
deriving DecidableEq, Repr

/-- An initial component state: empty graph, nothing scheduled, time zero. -/
def initState : AppState :=
  { nodes := []
    edges := []
    result := none
    showSolution := false
    showResultOverlay := false
    timers := []
    now := 0
    nextSeq := 0
    nextId := 0
    settleTimes := [] }

/-- `addNode` (lines 171-196): always appends a node with a fresh id; the
random x offset of `250 + Math.random() * 400` is passed in as `x`, the y
coordinate is `100 + nodes.length * 80`. -/
def addNode (label : NodeKind) (x : Int) (s : AppState) : AppState :=
  { s with
    nodes := s.nodes ++
      [{ id := s.nextId, label := label, x := x,
         y := 100 + 80 * (s.nodes.length : Int) }]
    nextId := s.nextId + 1 }

/-- A reactflow `Connection`: source and target node ids, each possibly null. -/
structure Connection where
  source : Option Nat
  target : Option Nat
deriving DecidableEq, Repr

/-- The edge id generated by reactflow for a connection without handles. -/
def connectionEdgeId (src tgt : Nat) : String :=
  "reactflow__edge-" ++ toString src ++ "-" ++ toString tgt

/-- The reactflow `addEdge` utility invoked at line 163 (imported at line 10;
the repository itself performs no validation in `onConnect`).  `addEdge`
returns the edge list unchanged when source or target is null or when an edge
with the same source and target already exists, and otherwise appends the new
edge; it never consults the node collection. -/
def rfAddEdge (c : Connection) (eds : List GEdge) : List GEdge :=
  match c.source, c.target with
  | some src, some tgt =>
      if eds.any (fun e => e.source == src && e.target == tgt) then eds
      else eds ++ [{ id := connectionEdgeId src tgt, source := src, target := tgt }]
  | _, _ => eds

/-- `onConnect` (lines 161-169): plays the connect sound (presentation only)
and stores `addEdge(connection, edges)`. -/
def onConnect (c : Connection) (s : AppState) : AppState :=
  { s with edges := rfAddEdge c s.edges }

/-- `handleSubmit` (lines 198-235) as a state transition: computes the
evaluation result from the current nodes and edges, stores it, and opens the
result overlay.  The celebration/discourage sound effects are the
presentation output `submitCelebrates`. -/
def handleSubmit (s : AppState) : AppState :=
  { s with
    result := some (evaluate s.nodes s.edges)
    showResultOverlay := true }

/-- `handleReset` (lines 237-243): empties both graph collections and clears
the result state.  Note that it does not touch the pending timer queue. -/
def handleReset (s : AppState) : AppState :=
  { s with
    nodes := []
    edges := []
    result := none
    showSolution := false
    showResultOverlay := false }

/-- The fixed solution position table `nodePositions` (lines 250-261). -/
def solutionPos : NodeKind → Int × Int
  | .user => (400, 50)
  | .knowledgeBase => (200, 150)
  | .aiEngine => (400, 250)
  | .retriever => (250, 350)
  | .llmModel => (400, 350)
  | .promptTemplate => (400, 450)
  | .outputResults => (400, 550)
  | .evaluationStep => (250, 650)
  | .humanFeedback => (150, 750)
  | .apiEndpoints => (550, 350)

/-- The `if (!nodeMap[label]) { ... create ... }` steps of `handleShowSolution`
(lines 264-311): look the label up among the nodes created so far; on a miss
create the node at its fixed table position with a fresh id.  Returns the
node for the label together with the updated node list and id counter. -/
def ensureNode (label : NodeKind) (ns : List GNode) (n : Nat) :
    GNode × List GNode × Nat :=
  match ns.find? (fun x => x.label == label) with
  | some x => (x, ns, n)
  | none =>
      let x : GNode :=
        { id := n, label := label, x := (solutionPos label).1, y := (solutionPos label).2 }
      (x, ns ++ [x], n + 1)

/-- The `expectedFlow.forEach` walk of `handleShowSolution` (lines 263-321):
for each reference pair create the missing endpoint nodes, then push the edge
`e-<index>` between the two mapped node ids. -/
def buildSolution :
    List (NodeKind × NodeKind) → List GNode → List GEdge → Nat → Nat →
    List GNode × List GEdge × Nat
  | [], ns, es, _, n => (ns, es, n)
  | (a, b) :: rest, ns, es, i, n =>
      match ensureNode a ns n with
      | (sN, ns1, n1) =>
        match ensureNode b ns1 n1 with
        | (tN, ns2, n2) =>
            buildSolution rest ns2
              (es ++ [{ id := "e-" ++ toString i, source := sN.id, target := tN.id }])
              (i + 1) n2

/-- `handleShowSolution` (lines 245-339): synchronously replaces the node
collection with the solution nodes, empties the edge collection and clears
the result; then schedules one `setTimeout` per solution edge at delay
`i * 100` (line 337), the callback of the last one scheduling the
fit-to-view call 100 ms after it runs (lines 332-335).  No previously
pending timer is cancelled. -/
def handleShowSolution (s : AppState) : AppState :=
  match buildSolution expectedFlow [] [] 0 s.nextId with
  | (ns, es, n') =>
    { s with
      nodes := ns
      edges := []
      result := none
      showSolution := true
      nextId := n'
      timers := s.timers ++ es.enum.map (fun p =>
        { due := s.now + p.1 * 100
          seq := s.nextSeq + p.1
          action := TimerAction.insertEdge p.2 (p.1 == es.length - 1) })
      nextSeq := s.nextSeq + es.length }

/-- The pending timer the event loop runs next: earliest deadline first,
ties broken by scheduling order (JavaScript timer semantics). -/
def nextTimer? (ts : List Timer) : Option Timer :=
  ts.foldl
    (fun acc u =>
      match acc with
      | none => some u
      | some b =>
          if u.due < b.due ∨ (u.due = b.due ∧ u.seq < b.seq) then some u else some b)
    none

/-- Run one timer callback.  The clock moves to the timer's deadline and the
timer leaves the queue; an edge-insertion callback appends its edge
(line 331), and the callback of the last scheduled edge additionally
schedules the fit-to-view call 100 ms later (lines 332-335); the fit-to-view
callback records its run time. -/
def applyTimer (t : Timer) (s : AppState) : AppState :=
  let s' := { s with now := t.due, timers := s.timers.filter (fun u => u.seq != t.seq) }
  match t.action with
  | .insertEdge e isLast =>
      let s'' := { s' with edges := s'.edges ++ [e] }
      if isLast then
        { s'' with
          timers := s''.timers ++ [{ due := t.due + 100, seq := s.nextSeq, action := .settle }]
          nextSeq := s.nextSeq + 1 }
      else s''
  | .settle => { s' with settleTimes := s'.settleTimes ++ [t.due] }

/-- One step of the event loop: run the next pending timer, if any. -/
def fireTimer (s : AppState) : AppState :=
  match nextTimer? s.timers with
  | none => s
  | some t => applyTimer t s

/-- Run the event loop for at most `fuel` timer callbacks.  Firing twelve
callbacks drains the queue of one solution reveal (eleven edge insertions
plus the fit-to-view call), which models waiting past the reveal's total
duration. -/
def runTimers : Nat → AppState → AppState
  | 0, s => s
  | fuel + 1, s => runTimers fuel (fireTimer s)

/-- The edges inserted by a list of timers, in order. -/
def timerEdges (l : List Timer) : List GEdge :=
  l.filterMap (fun u =>
    match u.action with
    | .insertEdge e _ => some e
    | .settle => none)

def solutionNodes (n : Nat) : List GNode :=
  [{ id := n,     label := .user,           x := 400, y := 50 },
   { id := n + 1, label := .knowledgeBase,  x := 200, y := 150 },
   { id := n + 2, label := .aiEngine,       x := 400, y := 250 },
   { id := n + 3, label := .retriever,      x := 250, y := 350 },
   { id := n + 4, label := .apiEndpoints,   x := 550, y := 350 },
   { id := n + 5, label := .llmModel,       x := 400, y := 350 },
   { id := n + 6, label := .promptTemplate, x := 400, y := 450 },
   { id := n + 7, label := .outputResults,  x := 400, y := 550 },
   { id := n + 8, label := .evaluationStep, x := 250, y := 650 },
   { id := n + 9, label := .humanFeedback,  x := 150, y := 750 }]

def solutionEdges (n : Nat) : List GEdge :=
  [{ id := "e-0",  source := n,     target := n + 1 },
   { id := "e-1",  source := n + 1, target := n + 2 },
   { id := "e-2",  source := n + 2, target := n + 3 },
   { id := "e-3",  source := n + 2, target := n + 4 },
   { id := "e-4",  source := n + 3, target := n + 5 },
   { id := "e-5",  source := n + 5, target := n + 6 },
   { id := "e-6",  source := n + 6, target := n + 7 },
   { id := "e-7",  source := n + 7, target := n },
   { id := "e-8",  source := n + 7, target := n + 8 },
   { id := "e-9",  source := n + 8, target := n + 9 },
   { id := "e-10", source := n + 9, target := n + 6 }]



def revealTimers (t q n : Nat) : List Timer :=
  [{ due := t,        seq := q,     action := .insertEdge { id := "e-0",  source := n,     target := n + 1 } false },
   { due := t + 100,  seq := q + 1, action := .insertEdge { id := "e-1",  source := n + 1, target := n + 2 } false },
   { due := t + 200,  seq := q + 2, action := .insertEdge { id := "e-2",  source := n + 2, target := n + 3 } false },
   { due := t + 300,  seq := q + 3, action := .insertEdge { id := "e-3",  source := n + 2, target := n + 4 } false },
   { due := t + 400,  seq := q + 4, action := .insertEdge { id := "e-4",  source := n + 3, target := n + 5 } false },
   { due := t + 500,  seq := q + 5, action := .insertEdge { id := "e-5",  source := n + 5, target := n + 6 } false },
   { due := t + 600,  seq := q + 6, action := .insertEdge { id := "e-6",  source := n + 6, target := n + 7 } false },
   { due := t + 700,  seq := q + 7, action := .insertEdge { id := "e-7",  source := n + 7, target := n } false },
   { due := t + 800,  seq := q + 8, action := .insertEdge { id := "e-8",  source := n + 7, target := n + 8 } false },
   { due := t + 900,  seq := q + 9, action := .insertEdge { id := "e-9",  source := n + 8, target := n + 9 } false },
   { due := t + 1000, seq := q + 10, action := .insertEdge { id := "e-10", source := n + 9, target := n + 6 } true }]


/-- The full-score criterion as the spec words it (used to compare the code
against the spec in claim C2): for every reference pair, SOME node of the
source kind and SOME node of the target kind are connected by an edge in that
direction - not necessarily the first-inserted nodes of those kinds. -/
def specAllPairsConnected (nodes : List GNode) (edges : List GEdge) : Bool :=
  expectedFlow.all (fun p =>
    nodes.any (fun sN => sN.label == p.1 &&
      nodes.any (fun tN => tN.label == p.2 && edgeExists edges sN.id tN.id)))

/-! ### General lemmas about the embedded operations -/

/-- The source compares node labels with string equality (`===`); since every
label stored in the graph is one of the ten template strings and `NodeKind.text`
is injective, comparing kinds is equivalent to comparing label strings. -/
theorem NodeKind.text_injective :
    ∀ a b : NodeKind, (NodeKind.text a == NodeKind.text b) = (a == b) := by
  decide

theorem totalExpected_eq : totalExpected = 11 := rfl

example : matchedCount [] [] = 0 := by decide
example : accuracyTenths 8 11 = 727 := by decide
example : accuracyTenths 7 11 = 636 := by decide
example : accuracyTenths 11 11 = 1000 := by decide
example : accuracyTenths 1 11 = 91 := by decide
example : tierOf 727 = .good := by decide
example : tierOf 636 = .fair := by decide

theorem buildSolution_eq (n : Nat) :
    buildSolution expectedFlow [] [] 0 n = (solutionNodes n, solutionEdges n, n + 10) := rfl
theorem matchedCount_solution (n : Nat) :
    matchedCount (solutionNodes n) (solutionEdges n) = 11 := by
  simp [matchedCount, expectedFlow, pairMatched, findNodeByLabel, edgeExists,
        solutionNodes, solutionEdges, List.countP, List.countP.go]

theorem handleShowSolution_eq (s : AppState) (h : s.timers = []) :
    handleShowSolution s =
      { s with
        nodes := solutionNodes s.nextId
        edges := []
        result := none
        showSolution := true
        nextId := s.nextId + 10
        nextSeq := s.nextSeq + 11
        timers := revealTimers s.now s.nextSeq s.nextId } := by
  simp [handleShowSolution, buildSolution_eq, h, revealTimers, solutionEdges, List.enum]

theorem nextTimer?_cons_min (hd : Timer) (tl : List Timer)
    (h : ∀ u ∈ tl, ¬(u.due < hd.due ∨ (u.due = hd.due ∧ u.seq < hd.seq))) :
    nextTimer? (hd :: tl) = some hd := by
  have key : ∀ (l : List Timer) (b : Timer),
      (∀ u ∈ l, ¬(u.due < b.due ∨ (u.due = b.due ∧ u.seq < b.seq))) →
      l.foldl
        (fun acc u =>
          match acc with
          | none => some u
          | some b =>
              if u.due < b.due ∨ (u.due = b.due ∧ u.seq < b.seq) then some u else some b)
        (some b) = some b := by
    intro l
    induction l with
    | nil => intro b _; rfl
    | cons x xs ih =>
        intro b hb
        have hx := hb x (by simp)
        simp only [List.foldl_cons, if_neg hx]
        exact ih b (fun u hu => hb u (by simp [hu]))
  simpa [nextTimer?] using key tl hd h

theorem filter_seq_cons (hd : Timer) (tl : List Timer)
    (h : ∀ u ∈ tl, u.seq ≠ hd.seq) :
    (hd :: tl).filter (fun u => u.seq != hd.seq) = tl := by
  rw [List.filter_cons]
  simp only [bne_self_eq_false, Bool.false_eq_true, if_false]
  exact List.filter_eq_self.mpr (fun u hu => by simpa [bne_iff_ne] using h u hu)

theorem fireTimer_insert (s : AppState) (hd : Timer) (tl : List Timer) (e : GEdge)
    (hts : s.timers = hd :: tl)
    (ha : hd.action = .insertEdge e false)
    (hmin : ∀ u ∈ tl, ¬(u.due < hd.due ∨ (u.due = hd.due ∧ u.seq < hd.seq)))
    (hseq : ∀ u ∈ tl, u.seq ≠ hd.seq) :
    fireTimer s = { s with now := hd.due, timers := tl, edges := s.edges ++ [e] } := by
  rw [fireTimer, hts, nextTimer?_cons_min hd tl hmin]
  simp only [applyTimer, ha, hts, filter_seq_cons hd tl hseq]
  simp

theorem fireTimer_insertLast (s : AppState) (hd : Timer) (tl : List Timer) (e : GEdge)
    (hts : s.timers = hd :: tl)
    (ha : hd.action = .insertEdge e true)
    (hmin : ∀ u ∈ tl, ¬(u.due < hd.due ∨ (u.due = hd.due ∧ u.seq < hd.seq)))
    (hseq : ∀ u ∈ tl, u.seq ≠ hd.seq) :
    fireTimer s =
      { s with
        now := hd.due
        timers := tl ++ [{ due := hd.due + 100, seq := s.nextSeq, action := .settle }]
        edges := s.edges ++ [e]
        nextSeq := s.nextSeq + 1 } := by
  rw [fireTimer, hts, nextTimer?_cons_min hd tl hmin]
  simp only [applyTimer, ha, hts, filter_seq_cons hd tl hseq]
  simp

theorem fireTimer_settle (s : AppState) (hd : Timer) (tl : List Timer)
    (hts : s.timers = hd :: tl)
    (ha : hd.action = .settle)
    (hmin : ∀ u ∈ tl, ¬(u.due < hd.due ∨ (u.due = hd.due ∧ u.seq < hd.seq)))
    (hseq : ∀ u ∈ tl, u.seq ≠ hd.seq) :
    fireTimer s = { s with now := hd.due, timers := tl, settleTimes := s.settleTimes ++ [hd.due] } := by
  rw [fireTimer, hts, nextTimer?_cons_min hd tl hmin]
  simp only [applyTimer, ha, hts, filter_seq_cons hd tl hseq]


theorem runTimers_add (a b : Nat) (s : AppState) :
    runTimers (a + b) s = runTimers a (runTimers b s) := by
  induction b generalizing s with
  | zero => rfl
  | succ b ih =>
      show runTimers (a + b + 1) s = _
      rw [runTimers]
      rw [ih (fireTimer s)]
      rfl

/-- Firing as many callbacks as there are timers in a sorted all-insert,
non-last prefix of the queue appends exactly those timers' edges, in order,
and leaves the rest of the queue; the clock ends at the last fired deadline. -/
theorem runTimers_prefix_inserts (l : List Timer) :
    ∀ (rest : List Timer) (s : AppState),
      s.timers = l ++ rest →
      (l ++ rest).Pairwise (fun a b => a.due < b.due ∧ a.seq < b.seq) →
      (∀ u ∈ l, ∃ e, u.action = TimerAction.insertEdge e false) →
      runTimers l.length s =
        { s with
          timers := rest
          now := (l.map Timer.due).getLastD s.now
          edges := s.edges ++ timerEdges l } := by
  induction l with
  | nil =>
      intro rest s hts _ _
      have hts' : s.timers = rest := by simpa using hts
      show s = _
      rw [← hts']
      simp [timerEdges]
  | cons hd tl ih =>
      intro rest s hts hsort hact
      obtain ⟨e, he⟩ := hact hd (by simp)
      have hsort' := List.pairwise_cons.mp hsort
      have hstep := fireTimer_insert s hd (tl ++ rest) e (by simpa using hts) he
        (fun u hu => by have := hsort'.1 u hu; omega)
        (fun u hu => by have := hsort'.1 u hu; omega)
      show runTimers (tl.length + 1) s = _
      rw [runTimers, hstep]
      rw [ih rest _ rfl hsort'.2 (fun u hu => hact u (by simp [hu]))]
      simp only [timerEdges, List.filterMap_cons, he, List.map_cons, List.getLastD_cons,
        List.append_assoc]
      rfl


theorem pairwise_revealTimers (t q n : Nat) :
    (revealTimers t q n).Pairwise (fun a b => a.due < b.due ∧ a.seq < b.seq) := by
  simp [revealTimers, List.pairwise_cons]

/-- Draining the queue scheduled by one reveal (eleven edge insertions and the
final fit-to-view call) appends exactly the solution edges, in order, then
records a single settle event 100 ms after the last insertion. -/
theorem run_reveal (s : AppState) (t q n : Nat) (ht : s.timers = revealTimers t q n) :
    runTimers 12 s =
      { s with
        edges := s.edges ++ solutionEdges n
        timers := []
        now := t + 1100
        nextSeq := s.nextSeq + 1
        settleTimes := s.settleTimes ++ [t + 1100] } := by
  have hts10 : s.timers = (revealTimers t q n).take 10 ++
      [⟨t + 1000, q + 10, .insertEdge ⟨"e-10", n + 9, n + 6⟩ true⟩] := by
    rw [ht]; rfl
  have hsort : ((revealTimers t q n).take 10 ++
      [(⟨t + 1000, q + 10, .insertEdge ⟨"e-10", n + 9, n + 6⟩ true⟩ : Timer)]).Pairwise
      (fun a b => a.due < b.due ∧ a.seq < b.seq) := pairwise_revealTimers t q n
  have hact : ∀ u ∈ (revealTimers t q n).take 10,
      ∃ e, u.action = TimerAction.insertEdge e false := by
    intro u hu
    simp [revealTimers, List.take] at hu
    rcases hu with rfl | rfl | rfl | rfl | rfl | rfl | rfl | rfl | rfl | rfl <;> exact ⟨_, rfl⟩
  have h10 : runTimers 10 s =
      { s with
        timers := [⟨t + 1000, q + 10, .insertEdge ⟨"e-10", n + 9, n + 6⟩ true⟩]
        now := t + 900
        edges := s.edges ++ (solutionEdges n).take 10 } :=
    runTimers_prefix_inserts _ _ s hts10 hsort hact
  calc runTimers 12 s
      = runTimers 2 (runTimers 10 s) := runTimers_add 2 10 s
    _ = _ := by
        rw [h10]
        rw [show (2 : Nat) = 1 + 1 from rfl, runTimers]
        rw [fireTimer_insertLast _ _ [] _ rfl rfl (by simp) (by simp)]
        rw [runTimers]
        rw [fireTimer_settle _ _ [] rfl rfl (by simp) (by simp)]
        simp [solutionEdges, List.append_assoc, runTimers]

theorem pairMatched_iff (nodes : List GNode) (edges : List GEdge) (p : NodeKind × NodeKind) :
    pairMatched nodes edges p = true ↔
      ∃ sN tN, findNodeByLabel nodes p.1 = some sN ∧ findNodeByLabel nodes p.2 = some tN ∧
        edgeExists edges sN.id tN.id = true := by
  unfold pairMatched
  cases hs : findNodeByLabel nodes p.1 <;> cases ht : findNodeByLabel nodes p.2 <;> simp

/-! ### The claims -/

/-- C1: for every graph state, `evaluate` reports the accuracy as the
percentage `matchedCount / totalExpected * 100` rounded to one decimal, the
feedback tier is computed from that rounded percentage with boundaries at
90 / 70 / 50, and in particular a graph matching exactly 8 of the 11
reference edges yields 72.7 percent, tier Good and the celebration signal
(`matchedCount / totalExpected >= 0.7`), while exactly 7 of 11 yields 63.6,
tier Fair and no celebration. -/
theorem c1_scoring_tiers_and_boundaries (nodes : List GNode) (edges : List GEdge) :
    (22 * (evaluate nodes edges).accuracyTenths ≤ 2000 * matchedCount nodes edges + 11
      ∧ 2000 * matchedCount nodes edges ≤ 22 * (evaluate nodes edges).accuracyTenths + 10)
    ∧ (evaluate nodes edges).feedback = tierMessage (tierOf (evaluate nodes edges).accuracyTenths)
    ∧ (tierOf (evaluate nodes edges).accuracyTenths = Tier.excellent ↔
        900 ≤ (evaluate nodes edges).accuracyTenths)
    ∧ (tierOf (evaluate nodes edges).accuracyTenths = Tier.good ↔
        700 ≤ (evaluate nodes edges).accuracyTenths ∧ (evaluate nodes edges).accuracyTenths < 900)
    ∧ (tierOf (evaluate nodes edges).accuracyTenths = Tier.fair ↔
        500 ≤ (evaluate nodes edges).accuracyTenths ∧ (evaluate nodes edges).accuracyTenths < 700)
    ∧ (tierOf (evaluate nodes edges).accuracyTenths = Tier.needsWork ↔
        (evaluate nodes edges).accuracyTenths < 500)
    ∧ (matchedCount nodes edges = 8 →
        (evaluate nodes edges).accuracyTenths = 727
          ∧ tierOf (evaluate nodes edges).accuracyTenths = Tier.good
          ∧ submitCelebrates nodes edges = true)
    ∧ (matchedCount nodes edges = 7 →
        (evaluate nodes edges).accuracyTenths = 636
          ∧ tierOf (evaluate nodes edges).accuracyTenths = Tier.fair
          ∧ submitCelebrates nodes edges = false) := by
  have ht : (evaluate nodes edges).accuracyTenths
      = (matchedCount nodes edges * 2000 + 11) / 22 := rfl
  refine ⟨?_, rfl, ?_, ?_, ?_, ?_, ?_, ?_⟩
  · rw [ht]; omega
  · rw [ht]; unfold tierOf; split_ifs <;> simp <;> omega
  · rw [ht]; unfold tierOf; split_ifs <;> simp <;> omega
  · rw [ht]; unfold tierOf; split_ifs <;> simp <;> omega
  · rw [ht]; unfold tierOf; split_ifs <;> simp <;> omega
  · intro h8
    rw [ht, h8]
    refine ⟨by norm_num, by norm_num [tierOf], ?_⟩
    simp [submitCelebrates, h8, totalExpected, expectedFlow]
  · intro h7
    rw [ht, h7]
    refine ⟨by norm_num, by norm_num [tierOf], ?_⟩
    simp [submitCelebrates, h7, totalExpected, expectedFlow]

/-- C1 witness: the solution graph restricted to its first 8 edges matches
exactly 8 reference pairs and the theorem instantiates to the stated
8-of-11 boundary values. -/
theorem c1_scoring_witness :
    matchedCount (solutionNodes 0) ((solutionEdges 0).take 8) = 8
    ∧ (evaluate (solutionNodes 0) ((solutionEdges 0).take 8)).accuracyTenths = 727
    ∧ tierOf (evaluate (solutionNodes 0) ((solutionEdges 0).take 8)).accuracyTenths = Tier.good
    ∧ submitCelebrates (solutionNodes 0) ((solutionEdges 0).take 8) = true := by
  have h8 : matchedCount (solutionNodes 0) ((solutionEdges 0).take 8) = 8 := by decide
  exact ⟨h8,
    (c1_scoring_tiers_and_boundaries (solutionNodes 0) ((solutionEdges 0).take 8)).2.2.2.2.2.2.1 h8⟩

set_option maxRecDepth 4096 in
/-- C2 counterexample: with a duplicate "User" node inserted before a full
solution graph, every reference pair is realized by SOME matching-kind node
pair connected in the right direction (stated both as an explicit
quantification and via `specAllPairsConnected`), yet `matchedCount` is 9,
not 11: the scoring loop resolves each kind to the FIRST node of that kind,
and the duplicate (edge-less) User node shadows the wired one, so the
claimed equivalence fails at this graph. -/
theorem c2_counterexample :
    ¬(matchedCount (⟨100, .user, 0, 0⟩ :: solutionNodes 0) (solutionEdges 0) = totalExpected ↔
        ∀ p ∈ expectedFlow, ∃ sN ∈ (⟨100, .user, 0, 0⟩ :: solutionNodes 0),
          ∃ tN ∈ (⟨100, .user, 0, 0⟩ :: solutionNodes 0),
            sN.label = p.1 ∧ tN.label = p.2 ∧ edgeExists (solutionEdges 0) sN.id tN.id = true)
    ∧ matchedCount (⟨100, .user, 0, 0⟩ :: solutionNodes 0) (solutionEdges 0) = 9
    ∧ (∀ p ∈ expectedFlow, ∃ sN ∈ (⟨100, .user, 0, 0⟩ :: solutionNodes 0),
        ∃ tN ∈ (⟨100, .user, 0, 0⟩ :: solutionNodes 0),
          sN.label = p.1 ∧ tN.label = p.2 ∧ edgeExists (solutionEdges 0) sN.id tN.id = true)
    ∧ specAllPairsConnected (⟨100, .user, 0, 0⟩ :: solutionNodes 0) (solutionEdges 0) = true := by
  decide

/-- C2 (amended): for every graph state, `matchedCount` is at most
`totalExpected` (11), and it equals `totalExpected` if and only if for every
reference pair the FIRST node (in insertion order) of the source kind and the
FIRST node of the target kind both exist and are connected by an edge
directed source-to-target.  Of the original existential reading only one
direction survives: a full score still guarantees that every reference pair
has SOME matching-kind node pair connected in that direction (the converse
is what the counterexample refutes). -/
theorem c2_matchedCount_bound_and_full_score (nodes : List GNode) (edges : List GEdge) :
    matchedCount nodes edges ≤ totalExpected
    ∧ (matchedCount nodes edges = totalExpected ↔
        ∀ p ∈ expectedFlow, ∃ sN tN,
          findNodeByLabel nodes p.1 = some sN ∧ findNodeByLabel nodes p.2 = some tN ∧
            edgeExists edges sN.id tN.id = true)
    ∧ (matchedCount nodes edges = totalExpected →
        ∀ p ∈ expectedFlow, ∃ sN ∈ nodes, ∃ tN ∈ nodes,
          sN.label = p.1 ∧ tN.label = p.2 ∧ edgeExists edges sN.id tN.id = true) := by
  have hiff : matchedCount nodes edges = totalExpected ↔
      ∀ p ∈ expectedFlow, ∃ sN tN,
        findNodeByLabel nodes p.1 = some sN ∧ findNodeByLabel nodes p.2 = some tN ∧
          edgeExists edges sN.id tN.id = true := by
    rw [matchedCount, totalExpected, List.countP_eq_length]
    constructor
    · intro h p hp
      exact (pairMatched_iff nodes edges p).mp (h p hp)
    · intro h p hp
      exact (pairMatched_iff nodes edges p).mpr (h p hp)
  refine ⟨List.countP_le_length _, hiff, ?_⟩
  intro h p hp
  obtain ⟨sN, tN, hs, ht, he⟩ := hiff.mp h p hp
  have hs0 : List.find? (fun n => n.label == p.1) nodes = some sN := hs
  have ht0 : List.find? (fun n => n.label == p.2) nodes = some tN := ht
  refine ⟨sN, List.mem_of_find?_eq_some hs0, tN, List.mem_of_find?_eq_some ht0, ?_, ?_, he⟩
  · simpa using List.find?_some hs0
  · simpa using List.find?_some ht0

/-- C6 counterexample: a connect request naming node ids 1 and 2 while the
node collection is empty does not fail and is not rejected - the edge IS
appended, because `onConnect` simply calls reactflow's `addEdge`, which never
consults the node collection. -/
theorem c6_counterexample :
    (onConnect ⟨some 1, some 2⟩ initState).nodes = []
    ∧ (onConnect ⟨some 1, some 2⟩ initState).edges =
        [⟨connectionEdgeId 1 2, 1, 2⟩] := by
  decide

/-- C6 (amended): `onConnect` performs no node-existence check and reports no
failure: its behaviour is a function of the edge list alone.  With both ends
of the connection non-null it appends the new edge - whether or not the ids
exist in the node collection - unless an edge with the same source and target
already exists, in which case the edge list is left unchanged; the node
collection is never modified. -/
theorem c6_connect_no_reference_check (c : Connection) (s : AppState) (src tgt : Nat)
    (hs : c.source = some src) (ht : c.target = some tgt) :
    (onConnect c s).nodes = s.nodes
    ∧ ((∀ e ∈ s.edges, ¬(e.source = src ∧ e.target = tgt)) →
        (onConnect c s).edges = s.edges ++ [⟨connectionEdgeId src tgt, src, tgt⟩])
    ∧ ((∃ e ∈ s.edges, e.source = src ∧ e.target = tgt) →
        (onConnect c s).edges = s.edges) := by
  refine ⟨rfl, ?_, ?_⟩
  · intro hnone
    have hcond : (s.edges.any (fun e => e.source == src && e.target == tgt)) = false := by
      simp only [List.any_eq_false]
      intro e he
      have := hnone e he
      simp only [Bool.and_eq_true, beq_iff_eq, not_and]
      intro h1
      exact fun h2 => this ⟨h1, h2⟩
    simp [onConnect, rfAddEdge, hs, ht, hcond]
  · intro ⟨e, he, h1, h2⟩
    have hcond : (s.edges.any (fun e => e.source == src && e.target == tgt)) = true := by
      simp only [List.any_eq_true]
      exact ⟨e, he, by simp [h1, h2]⟩
    simp [onConnect, rfAddEdge, hs, ht, hcond]

/-- C6 witness: the amended theorem at a concrete input - connecting 5 to 6
in the initial (empty-edge) state appends exactly that edge. -/
theorem c6_connect_witness :
    (onConnect ⟨some 5, some 6⟩ initState).nodes = initState.nodes
    ∧ ((∀ e ∈ initState.edges, ¬(e.source = 5 ∧ e.target = 6)) →
        (onConnect ⟨some 5, some 6⟩ initState).edges =
          initState.edges ++ [⟨connectionEdgeId 5 6, 5, 6⟩])
    ∧ ((∃ e ∈ initState.edges, e.source = 5 ∧ e.target = 6) →
        (onConnect ⟨some 5, some 6⟩ initState).edges = initState.edges) :=
  c6_connect_no_reference_check ⟨some 5, some 6⟩ initState 5 6 rfl rfl

/-- C7: for every reference pair, a user edge drawn in the reverse direction
(from the target-kind node back to the source-kind node) never makes that
pair count: adding such an edge leaves the pair's match status unchanged. -/
theorem c7_reverse_edge_does_not_count (nodes : List GNode) (edges : List GEdge)
    (p : NodeKind × NodeKind) (sN tN : GNode) (eid : String)
    (_hp : p ∈ expectedFlow)
    (hs : findNodeByLabel nodes p.1 = some sN)
    (ht : findNodeByLabel nodes p.2 = some tN)
    (hne : sN.id ≠ tN.id) :
    pairMatched nodes (⟨eid, tN.id, sN.id⟩ :: edges) p = pairMatched nodes edges p := by
  have key : edgeExists (⟨eid, tN.id, sN.id⟩ :: edges) sN.id tN.id
      = edgeExists edges sN.id tN.id := by
    unfold edgeExists
    rw [List.any_cons]
    have hflip : ((⟨eid, tN.id, sN.id⟩ : GEdge).source == sN.id
        && (⟨eid, tN.id, sN.id⟩ : GEdge).target == tN.id) = false := by
      simp only [Bool.and_eq_false_iff, beq_eq_false_iff_ne]
      exact Or.inl (fun h => hne (by simpa using h.symm))
    rw [hflip, Bool.false_or]
  unfold pairMatched
  rw [hs, ht]
  exact key

/-- C7 witness: with a User node and a Knowledge Base node and only the
reversed edge Knowledge Base to User present, the (User, Knowledge Base)
reference pair stays unmatched. -/
theorem c7_reverse_edge_witness :
    pairMatched [⟨0, .user, 0, 0⟩, ⟨1, .knowledgeBase, 0, 0⟩]
        [⟨"rev", (1 : Nat), (0 : Nat)⟩] (NodeKind.user, NodeKind.knowledgeBase)
      = pairMatched [⟨0, .user, 0, 0⟩, ⟨1, .knowledgeBase, 0, 0⟩] []
          (NodeKind.user, NodeKind.knowledgeBase) :=
  c7_reverse_edge_does_not_count [⟨0, .user, 0, 0⟩, ⟨1, .knowledgeBase, 0, 0⟩] []
    (NodeKind.user, NodeKind.knowledgeBase) ⟨0, .user, 0, 0⟩ ⟨1, .knowledgeBase, 0, 0⟩
    "rev" (by decide) rfl rfl (by decide)

/-- C8: `handleSubmit` (the evaluation request) is deterministic and
side-effect-free on the graph: it leaves the node and edge collections (and
the pending timer queue) unchanged, stores exactly the value of the pure
function `evaluate`, and a second evaluation of the unchanged graph yields an
identical result. -/
theorem c8_evaluate_pure (s : AppState) :
    (handleSubmit s).nodes = s.nodes
    ∧ (handleSubmit s).edges = s.edges
    ∧ (handleSubmit s).timers = s.timers
    ∧ (handleSubmit s).result = some (evaluate s.nodes s.edges)
    ∧ (handleSubmit (handleSubmit s)).result = (handleSubmit s).result
    ∧ evaluate (handleSubmit s).nodes (handleSubmit s).edges = evaluate s.nodes s.edges :=
  ⟨rfl, rfl, rfl, rfl, rfl, rfl⟩

/-- C9: the scoring loop resolves each reference pair's kinds to the FIRST
node of that kind in insertion order; an edge that connects later
duplicate-kind nodes therefore does not count toward `matchedCount` for that
pair. -/
theorem c9_first_match_resolution (a b : NodeKind) (n0 m0 n1 m1 : GNode) (eid : String)
    (hab : (a, b) ∈ expectedFlow)
    (h0 : n0.label = a) (h1 : m0.label = b) (_h2 : n1.label = a) (_h3 : m1.label = b)
    (hid : n1.id ≠ n0.id) :
    findNodeByLabel [n0, m0, n1, m1] a = some n0
    ∧ findNodeByLabel [n0, m0, n1, m1] b = some m0
    ∧ pairMatched [n0, m0, n1, m1] [⟨eid, n1.id, m1.id⟩] (a, b) = false := by
  have hne : a ≠ b := by
    have hall : ∀ p ∈ expectedFlow, p.1 ≠ p.2 := by decide
    exact hall (a, b) hab
  have hfa : findNodeByLabel [n0, m0, n1, m1] a = some n0 := by
    simp [findNodeByLabel, List.find?, h0]
  have hfb : findNodeByLabel [n0, m0, n1, m1] b = some m0 := by
    have hba : (a == b) = false := beq_eq_false_iff_ne.mpr hne
    simp [findNodeByLabel, List.find?, h0, h1, hba]
  refine ⟨hfa, hfb, ?_⟩
  unfold pairMatched
  rw [hfa, hfb]
  simp [edgeExists, hid]

/-- C9 witness: concrete duplicate setup - first-inserted User (id 0) and
Knowledge Base (id 1) nodes, later duplicates with ids 2 and 3, and a single
edge between the duplicates: the lookups return the first nodes and the pair
does not count. -/
theorem c9_first_match_witness :
    findNodeByLabel [⟨0, .user, 0, 0⟩, ⟨1, .knowledgeBase, 0, 0⟩,
        ⟨2, .user, 0, 0⟩, ⟨3, .knowledgeBase, 0, 0⟩] NodeKind.user = some ⟨0, .user, 0, 0⟩
    ∧ findNodeByLabel [⟨0, .user, 0, 0⟩, ⟨1, .knowledgeBase, 0, 0⟩,
        ⟨2, .user, 0, 0⟩, ⟨3, .knowledgeBase, 0, 0⟩] NodeKind.knowledgeBase
        = some ⟨1, .knowledgeBase, 0, 0⟩
    ∧ pairMatched [⟨0, .user, 0, 0⟩, ⟨1, .knowledgeBase, 0, 0⟩,
        ⟨2, .user, 0, 0⟩, ⟨3, .knowledgeBase, 0, 0⟩]
        [⟨"dup", (2 : Nat), (3 : Nat)⟩] (NodeKind.user, NodeKind.knowledgeBase) = false :=
  c9_first_match_resolution NodeKind.user NodeKind.knowledgeBase
    ⟨0, .user, 0, 0⟩ ⟨1, .knowledgeBase, 0, 0⟩ ⟨2, .user, 0, 0⟩ ⟨3, .knowledgeBase, 0, 0⟩
    "dup" (by decide) rfl rfl rfl rfl (by decide)

theorem handleShowSolution_core (s : AppState) :
    (handleShowSolution s).nodes = solutionNodes s.nextId
    ∧ (handleShowSolution s).edges = []
    ∧ (handleShowSolution s).result = none := by
  unfold handleShowSolution
  rw [buildSolution_eq]
  exact ⟨rfl, rfl, rfl⟩

/-- C10: invoking the solution reveal synchronously (before any of its
deferred edge insertions runs) replaces the node collection with exactly one
node per node kind, each placed at the fixed position table, and empties the
edge collection; an evaluation issued in that window therefore returns
matchedCount 0, accuracy 0.0 and tier NeedsWork, with no celebration. -/
theorem c10_reveal_synchronous_state (s : AppState) :
    (handleShowSolution s).edges = []
    ∧ (handleShowSolution s).nodes.map GNode.label =
        [.user, .knowledgeBase, .aiEngine, .retriever, .apiEndpoints,
         .llmModel, .promptTemplate, .outputResults, .evaluationStep, .humanFeedback]
    ∧ ((handleShowSolution s).nodes.map GNode.label).Nodup
    ∧ (∀ k : NodeKind, k ∈ (handleShowSolution s).nodes.map GNode.label)
    ∧ (∀ nd ∈ (handleShowSolution s).nodes, (nd.x, nd.y) = solutionPos nd.label)
    ∧ (evaluate (handleShowSolution s).nodes (handleShowSolution s).edges).correct = 0
    ∧ (evaluate (handleShowSolution s).nodes (handleShowSolution s).edges).accuracyTenths = 0
    ∧ tierOf (evaluate (handleShowSolution s).nodes
        (handleShowSolution s).edges).accuracyTenths = Tier.needsWork
    ∧ submitCelebrates (handleShowSolution s).nodes (handleShowSolution s).edges = false := by
  obtain ⟨hn, he, -⟩ := handleShowSolution_core s
  rw [hn, he]
  have h1 : (evaluate (solutionNodes s.nextId) []).accuracyTenths
      = accuracyTenths 0 totalExpected := rfl
  refine ⟨rfl, rfl, ?_, ?_, ?_, rfl, ?_, ?_, rfl⟩
  · simp [solutionNodes]
  · intro k; cases k <;> simp [solutionNodes]
  · intro nd hnd
    simp only [solutionNodes, List.mem_cons, List.not_mem_nil, or_false] at hnd
    rcases hnd with rfl | rfl | rfl | rfl | rfl | rfl | rfl | rfl | rfl | rfl <;> rfl
  · rw [h1]; decide
  · rw [h1]; decide

/-- C3: a completed solution reveal followed by an evaluation always scores
11 of 11: accuracy 100.0, tier Excellent, and the celebration boundary is
met. -/
theorem c3_reveal_then_full_score (s : AppState) (h : s.timers = []) :
    (evaluate (runTimers 12 (handleShowSolution s)).nodes
        (runTimers 12 (handleShowSolution s)).edges).correct = totalExpected
    ∧ (evaluate (runTimers 12 (handleShowSolution s)).nodes
        (runTimers 12 (handleShowSolution s)).edges).accuracyTenths = 1000
    ∧ tierOf (evaluate (runTimers 12 (handleShowSolution s)).nodes
        (runTimers 12 (handleShowSolution s)).edges).accuracyTenths = Tier.excellent
    ∧ (evaluate (runTimers 12 (handleShowSolution s)).nodes
        (runTimers 12 (handleShowSolution s)).edges).feedback = tierMessage Tier.excellent
    ∧ submitCelebrates (runTimers 12 (handleShowSolution s)).nodes
        (runTimers 12 (handleShowSolution s)).edges = true := by
  rw [handleShowSolution_eq s h]
  rw [run_reveal _ s.now s.nextSeq s.nextId rfl]
  have hm : matchedCount (solutionNodes s.nextId) (solutionEdges s.nextId) = 11 :=
    matchedCount_solution s.nextId
  refine ⟨?_, ?_, ?_, ?_, ?_⟩ <;>
    simp [evaluate, hm, submitCelebrates, accuracyTenths, tierOf, feedbackOf,
      totalExpected, expectedFlow, tierMessage]

/-- C3 witness: the reveal-then-evaluate property at the initial state. -/
theorem c3_reveal_witness :
    (evaluate (runTimers 12 (handleShowSolution initState)).nodes
        (runTimers 12 (handleShowSolution initState)).edges).correct = totalExpected
    ∧ (evaluate (runTimers 12 (handleShowSolution initState)).nodes
        (runTimers 12 (handleShowSolution initState)).edges).accuracyTenths = 1000
    ∧ tierOf (evaluate (runTimers 12 (handleShowSolution initState)).nodes
        (runTimers 12 (handleShowSolution initState)).edges).accuracyTenths = Tier.excellent
    ∧ (evaluate (runTimers 12 (handleShowSolution initState)).nodes
        (runTimers 12 (handleShowSolution initState)).edges).feedback = tierMessage Tier.excellent
    ∧ submitCelebrates (runTimers 12 (handleShowSolution initState)).nodes
        (runTimers 12 (handleShowSolution initState)).edges = true :=
  c3_reveal_then_full_score initState rfl

/-- C4: one reveal invocation schedules exactly eleven edge insertions - one
per reference edge, in reference-sequence order, with strictly increasing
deadlines at a constant 100 ms stride - and running them to completion
inserts the edges in exactly that order, never reordered or coalesced, then
emits exactly one fit-to-view signal one further 100 ms delay after the last
insertion. -/
theorem c4_reveal_schedule (s : AppState) (h : s.timers = []) :
    (handleShowSolution s).timers.map Timer.due
      = (List.range 11).map (fun i => s.now + 100 * i)
    ∧ (handleShowSolution s).timers.map Timer.action
      = (solutionEdges s.nextId).enum.map (fun p => TimerAction.insertEdge p.2 (p.1 == 10))
    ∧ ((handleShowSolution s).timers.map Timer.due).Pairwise (· < ·)
    ∧ (∀ i, i < 11 → ∃ e p sN tN,
        (solutionEdges s.nextId).get? i = some e
        ∧ expectedFlow.get? i = some p
        ∧ findNodeByLabel (handleShowSolution s).nodes p.1 = some sN
        ∧ findNodeByLabel (handleShowSolution s).nodes p.2 = some tN
        ∧ e.source = sN.id ∧ e.target = tN.id)
    ∧ (runTimers 12 (handleShowSolution s)).edges = solutionEdges s.nextId
    ∧ (runTimers 12 (handleShowSolution s)).settleTimes = s.settleTimes ++ [s.now + 1100]
    ∧ (runTimers 12 (handleShowSolution s)).timers = [] := by
  rw [handleShowSolution_eq s h]
  rw [run_reveal _ s.now s.nextSeq s.nextId rfl]
  refine ⟨rfl, rfl, ?_, ?_, by simp, rfl, rfl⟩
  · simp [revealTimers, List.pairwise_cons]
  · intro i hi
    interval_cases i <;>
      exact ⟨_, _, _, _, rfl, rfl, rfl, rfl, rfl, rfl⟩

/-- C4 witness: the schedule properties at the initial state. -/
theorem c4_reveal_schedule_witness :
    (handleShowSolution initState).timers.map Timer.due
      = (List.range 11).map (fun i => initState.now + 100 * i)
    ∧ (handleShowSolution initState).timers.map Timer.action
      = (solutionEdges initState.nextId).enum.map
          (fun p => TimerAction.insertEdge p.2 (p.1 == 10))
    ∧ ((handleShowSolution initState).timers.map Timer.due).Pairwise (· < ·)
    ∧ (∀ i, i < 11 → ∃ e p sN tN,
        (solutionEdges initState.nextId).get? i = some e
        ∧ expectedFlow.get? i = some p
        ∧ findNodeByLabel (handleShowSolution initState).nodes p.1 = some sN
        ∧ findNodeByLabel (handleShowSolution initState).nodes p.2 = some tN
        ∧ e.source = sN.id ∧ e.target = tN.id)
    ∧ (runTimers 12 (handleShowSolution initState)).edges = solutionEdges initState.nextId
    ∧ (runTimers 12 (handleShowSolution initState)).settleTimes
        = initState.settleTimes ++ [initState.now + 1100]
    ∧ (runTimers 12 (handleShowSolution initState)).timers = [] :=
  c4_reveal_schedule initState rfl

/-- C5: the claim demands that a reset issued mid-reveal cancels every
still-pending scheduled edge insertion, leaving a graph with no nodes and no
edges even after the reveal's total duration has elapsed.  The code does not
do this: `handleReset` clears the graph but never cancels the pending
`setTimeout` callbacks, so after a reveal at time 0 and an immediate reset,
draining the timer queue re-inserts all eleven solution edges into the
cleared graph - the post-reset state ends with zero nodes but eleven edges. -/
theorem c5_reset_leaves_stale_insertions :
    (handleReset (handleShowSolution initState)).nodes = []
    ∧ (handleReset (handleShowSolution initState)).edges = []
    ∧ (runTimers 12 (handleReset (handleShowSolution initState))).nodes = []
    ∧ (runTimers 12 (handleReset (handleShowSolution initState))).edges = solutionEdges 0
    ∧ (solutionEdges 0).length = 11 := by
  have hr : runTimers 12 (handleReset (handleShowSolution initState))
      = { handleReset (handleShowSolution initState) with
          edges := [] ++ solutionEdges 0
          timers := []
          now := 0 + 1100
          nextSeq := (handleReset (handleShowSolution initState)).nextSeq + 1
          settleTimes := (handleReset (handleShowSolution initState)).settleTimes ++ [0 + 1100] } :=
    run_reveal _ 0 0 0 rfl
  rw [hr]
  exact ⟨rfl, rfl, rfl, rfl, rfl⟩
